import Mathlib

/-!
# Verification of the Kidde HomeSafe sensor platform

Shallow embedding of `custom_components/kidde_homesafe/sensor.py`.

A device's raw data is a Python-dict-like mapping from field names to raw
values (`None`, strings, numbers, or nested objects).  We model Python
values by the inductive `PVal`, dictionaries by association lists (first
occurrence wins, as Python dicts have unique keys), and code that can raise
an exception by `Except PyExn`.
-/

/-- A Python runtime value, as far as this platform inspects them:
`None`, a string, a number (modelled by `Int`), or a nested dict. -/
inductive PVal where
  | none : PVal
  | str (s : String) : PVal
  | num (n : Int) : PVal
  | dict (d : List (String × PVal)) : PVal
deriving Repr

mutual

/-- Decidable equality on `PVal` (the deriving handler does not cover
nested inductives, so it is spelled out). -/
def PVal.decEq : (a b : PVal) → Decidable (a = b)
  | .none, .none => isTrue rfl
  | .none, .str _ | .none, .num _ | .none, .dict _ => isFalse (by intro h; cases h)
  | .str _, .none | .str _, .num _ | .str _, .dict _ => isFalse (by intro h; cases h)
  | .num _, .none | .num _, .str _ | .num _, .dict _ => isFalse (by intro h; cases h)
  | .dict _, .none | .dict _, .str _ | .dict _, .num _ => isFalse (by intro h; cases h)
  | .str a, .str b =>
      match String.decEq a b with
      | isTrue h => isTrue (by rw [h])
      | isFalse h => isFalse (by intro hh; injection hh with hv; exact h hv)
  | .num a, .num b =>
      match Int.decEq a b with
      | isTrue h => isTrue (by rw [h])
      | isFalse h => isFalse (by intro hh; injection hh with hv; exact h hv)
  | .dict a, .dict b =>
      match PVal.decEqList a b with
      | isTrue h => isTrue (by rw [h])
      | isFalse h => isFalse (by intro hh; injection hh with hv; exact h hv)

/-- Decidable equality of dict entry lists. -/
def PVal.decEqList : (a b : List (String × PVal)) → Decidable (a = b)
  | [], [] => isTrue rfl
  | [], _ :: _ => isFalse (by intro h; cases h)
  | _ :: _, [] => isFalse (by intro h; cases h)
  | (k1, v1) :: r1, (k2, v2) :: r2 =>
      match String.decEq k1 k2, PVal.decEq v1 v2, PVal.decEqList r1 r2 with
      | isTrue h1, isTrue h2, isTrue h3 => isTrue (by rw [h1, h2, h3])
      | isFalse h1, _, _ =>
          isFalse (by
            intro hh; injection hh with hp hr; injection hp with hk hv
            exact h1 hk)
      | _, isFalse h2, _ =>
          isFalse (by
            intro hh; injection hh with hp hr; injection hp with hk hv
            exact h2 hv)
      | _, _, isFalse h3 =>
          isFalse (by intro hh; injection hh with hp hr; exact h3 hr)

end

instance : DecidableEq PVal := PVal.decEq

/-- The exceptions the embedded code can raise.  `ValueError` from
`strptime` is always caught locally, so only `AttributeError` (calling a
string method on a non-string) can escape an accessor. -/
inductive PyExn where
  | attributeError : PyExn
deriving DecidableEq, Repr

/-- A device's raw-data mapping (a Python dict field-name → value). -/
def RawData := List (String × PVal)

/-- `d.get(k)`: first value stored under `k`, `None` when absent. -/
def pyGet (d : RawData) (k : String) : PVal :=
  match d with
  | [] => PVal.none
  | (k', v) :: rest => if k' = k then v else pyGet rest k

/-- `d.get(k, default)`: lookup with an explicit default. -/
def pyGetD (d : RawData) (k : String) (dflt : PVal) : PVal :=
  match d with
  | [] => dflt
  | (k', v) :: rest => if k' = k then v else pyGetD rest k dflt

/-- `k in d`: key-membership test of a Python dict. -/
def hasKey (d : RawData) (k : String) : Bool :=
  match d with
  | [] => false
  | (k', _) :: rest => k' = k || hasKey rest k

/-! ## Timestamp parsing

`KiddeSensorTimestampEntity.native_value` runs
`value.strip("Z").split(".")[0]` and then
`datetime.datetime.strptime(stripped, "%Y-%m-%dT%H:%M:%S")`.
We embed CPython's `_strptime` semantics for this fixed format: each
directive matches a bounded run of digits (`%Y` exactly four digits; month
1–12, day 1–31, hour 0–23, minute 0–59, second 0–61, each one or two
digits), the literal separators must match, the whole string must be
consumed, and the subsequent `datetime(...)` construction additionally
requires year ≥ 1, second ≤ 59 and a day valid for the month.  (CPython's
space-padded day alternative `" 1".."​ 9"` is not modelled; no claim touches
it.) -/

/-- A parsed `datetime.datetime`; `utc` records whether `tzinfo=UTC` was
attached by `.replace`. -/
structure PyDateTime where
  year : Nat
  month : Nat
  day : Nat
  hour : Nat
  minute : Nat
  second : Nat
  utc : Bool
deriving DecidableEq, Repr

/-- Maximal run of leading digits of a character list. -/
def munchDigits (l : List Char) : List Char × List Char :=
  (l.takeWhile Char.isDigit, l.dropWhile Char.isDigit)

/-- Numeric value of a digit string. -/
def natOfDigits (l : List Char) : Nat :=
  l.foldl (fun a c => a * 10 + (c.toNat - 48)) 0

/-- Match one literal character. -/
def lit (c : Char) : List Char → Option (List Char)
  | [] => Option.none
  | x :: r => if x = c then some r else Option.none

/-- Match a one-or-two-digit numeric field with value in `[lo, hi]`. -/
def numField (lo hi : Nat) (l : List Char) : Option (Nat × List Char) :=
  let (ds, r) := munchDigits l
  if ds.length = 0 || 2 < ds.length then Option.none
  else
    let v := natOfDigits ds
    if v < lo || hi < v then Option.none else some (v, r)

/-- Gregorian leap-year test (as `calendar.isleap`). -/
def isLeap (y : Nat) : Bool :=
  (y % 4 = 0 && y % 100 ≠ 0) || y % 400 = 0

/-- Days in a month, as validated by the `datetime` constructor. -/
def daysInMonth (y m : Nat) : Nat :=
  if m = 2 then (if isLeap y then 29 else 28)
  else if m = 4 || m = 6 || m = 9 || m = 11 then 30
  else 31

/-- `datetime.datetime.strptime(s, "%Y-%m-%dT%H:%M:%S")`: `some` of the
parsed naive datetime, `none` when a `ValueError` is raised.  The input is
the character list of the string. -/
def strptimeYmdHMS (l : List Char) : Option PyDateTime :=
  let (ys, r) := munchDigits l
  if ys.length ≠ 4 then Option.none
  else
    let y := natOfDigits ys
    match lit '-' r with
    | Option.none => Option.none
    | some r =>
      match numField 1 12 r with
      | Option.none => Option.none
      | some (m, r) =>
        match lit '-' r with
        | Option.none => Option.none
        | some r =>
          match numField 1 31 r with
          | Option.none => Option.none
          | some (d, r) =>
            match lit 'T' r with
            | Option.none => Option.none
            | some r =>
              match numField 0 23 r with
              | Option.none => Option.none
              | some (h, r) =>
                match lit ':' r with
                | Option.none => Option.none
                | some r =>
                  match numField 0 59 r with
                  | Option.none => Option.none
                  | some (mi, r) =>
                    match lit ':' r with
                    | Option.none => Option.none
                    | some r =>
                      match numField 0 61 r with
                      | Option.none => Option.none
                      | some (sec, r) =>
                        if ¬ r.isEmpty then Option.none
                        else if y < 1 then Option.none
                        else if 59 < sec then Option.none
                        else if daysInMonth y m < d then Option.none
                        else some ⟨y, m, d, h, mi, sec, false⟩

/-- Python `s.strip("Z")` on a character list: remove every leading and
trailing `'Z'`. -/
def stripChar (c : Char) (l : List Char) : List Char :=
  ((l.dropWhile (· = c)).reverse.dropWhile (· = c)).reverse

/-- Python `s.split(".")[0]` on a character list: the prefix before the
first period (`split` always yields a non-empty list, so `[0]` is safe,
and its first element is exactly the run of characters before the first
separator). -/
def beforeDot (l : List Char) : List Char :=
  l.takeWhile (· ≠ '.')

/-- `.replace(tzinfo=datetime.UTC)`. -/
def tagUTC (dt : PyDateTime) : PyDateTime := { dt with utc := true }

/-- `KiddeSensorTimestampEntity.native_value` for the device data `d` and
description key `k`.  A `None` raw value is returned as is; a string is
stripped of `'Z'` on both ends, truncated at the first period, and parsed;
a `ValueError` from parsing is caught and `None` returned; any other raw
value raises `AttributeError` at `value.strip`. -/
def timestampNativeValue (d : RawData) (k : String) :
    Except PyExn (Option PyDateTime) :=
  match pyGet d k with
  | PVal.none => .ok Option.none
  | PVal.str s =>
      .ok ((strptimeYmdHMS (beforeDot (stripChar 'Z' s.toList))).map tagUTC)
  | _ => .error .attributeError

instance {ε α : Type} [DecidableEq ε] [DecidableEq α] : DecidableEq (Except ε α)
  | .ok a, .ok b => by
      cases decEq a b with
      | isTrue h => exact isTrue (by rw [h])
      | isFalse h => exact isFalse (by intro hh; cases hh; exact h rfl)
  | .ok _, .error _ => isFalse (by intro h; cases h)
  | .error _, .ok _ => isFalse (by intro h; cases h)
  | .error a, .error b => by
      cases decEq a b with
      | isTrue h => exact isTrue (by rw [h])
      | isFalse h => exact isFalse (by intro hh; cases hh; exact h rfl)

/-! ## Field catalog and device enumeration

The three static description tuples of `sensor.py`, reduced to their
`key` fields (enumeration and the claims only inspect keys; the life
entity's display metadata is modelled separately below). -/

def KEY_MB_MODEL : String := "mb_model"
def LIFE_SENSOR_KEY : String := "life"
def KEY_VALUE : String := "value"
def KEY_STATUS : String := "status"
def KEY_UNIT : String := "Unit"

/-- Keys of `_TIMESTAMP_DESCRIPTIONS`, in order. -/
def timestampSensorKeys : List String :=
  ["last_seen", "last_test_time", "iaq_last_test_time"]

/-- Keys of `_SENSOR_DESCRIPTIONS`, in order. -/
def simpleSensorKeys : List String :=
  ["overall_iaq_status", "smoke_level", "co_level", "batt_volt", "life",
   "ap_rssi", "ssid", "alarm_interval", "alarm_reset_time", "battery_level",
   "battery_voltage", "checkin_interval", "hold_alarm_time",
   "rapid_temperature_variation_status", "temperature_variation_value",
   "temperature"]

/-- Keys of `_SENSOR_MEASUREMENT_DESCRIPTIONS`, in order. -/
def measurementSensorKeys : List String :=
  ["iaq_temperature", "humidity", "hpa", "tvoc", "iaq", "co2"]

/-- Every catalog key (the three description tables together). -/
def catalogKeys : List String :=
  timestampSensorKeys ++ simpleSensorKeys ++ measurementSensorKeys

/-- `_SKIP_SIMPLE_SENSOR_KEYS`: keys suppressed for DETECT models. -/
def skipSimpleSensorKeys : List String := ["batt_volt", "battery_voltage"]

/-- `mb_model in MB_MODELS_DETECT_SERIES` for `MB_MODELS_DETECT_SERIES =
{48, 46}`: true exactly when the raw `mb_model` value is the integer 48 or
46 (membership is by Python equality against the two set elements). -/
def mbModelIsDetect (v : PVal) : Bool :=
  v == PVal.num 48 || v == PVal.num 46

/-- `life_description = next((d for d in _SENSOR_DESCRIPTIONS if d.key ==
LIFE_SENSOR_KEY), None)`: the first catalog entry with the life key. -/
def lifeDescription : Option String :=
  simpleSensorKeys.find? (fun k => k == LIFE_SENSOR_KEY)

/-- Which of the four entity classes a sensor was instantiated from. -/
inductive SensorKind where
  | timestamp : SensorKind
  | life : SensorKind
  | simple : SensorKind
  | measurement : SensorKind
deriving DecidableEq, Repr

/-- One instantiated sensor entity: its class and its description key. -/
structure SensorInst where
  kind : SensorKind
  key : String
deriving DecidableEq, Repr

/-- The per-device body of `async_setup_entry`: the sensors appended for
one device, in program order — timestamp entities, then the custom life
entity (guarded by key presence and a found `life_description`), then the
simple loop (skipping the life key, and skipping the two voltage keys when
the model is DETECT series), then the measurement entities. -/
def setupDeviceSensors (d : RawData) : List SensorInst :=
  let mbModel := pyGet d KEY_MB_MODEL
  (timestampSensorKeys.filter (fun k => hasKey d k)).map
      (fun k => SensorInst.mk SensorKind.timestamp k)
    ++ (if hasKey d LIFE_SENSOR_KEY && lifeDescription.isSome then
          [SensorInst.mk SensorKind.life LIFE_SENSOR_KEY]
        else [])
    ++ (simpleSensorKeys.filter (fun k =>
          !(k == LIFE_SENSOR_KEY)
          && !(skipSimpleSensorKeys.contains k && mbModelIsDetect mbModel)
          && hasKey d k)).map (fun k => SensorInst.mk SensorKind.simple k)
    ++ (measurementSensorKeys.filter (fun k => hasKey d k)).map
      (fun k => SensorInst.mk SensorKind.measurement k)

/-- `async_setup_entry` over the whole `coordinator.data.devices` mapping:
the concatenation of every device's sensors, tagged by device id. -/
def async_setup_entry (devices : List (String × RawData)) :
    List (String × SensorInst) :=
  devices.flatMap (fun p => (setupDeviceSensors p.2).map (fun i => (p.1, i)))

/-! ## The life entity (`KiddeSensorLifeEntity`) -/

/-- A Home Assistant unit-of-measurement constant. -/
inductive HAUnit where
  | celsius : HAUnit
  | fahrenheit : HAUnit
  | percentage : HAUnit
  | pa : HAUnit
  | ppb : HAUnit
  | ppm : HAUnit
  | volt : HAUnit
  | days : HAUnit
  | weeks : HAUnit
deriving DecidableEq, Repr

/-- A `{name, unit}` entry of `LIFE_SENSOR_CONFIG`. -/
structure LifeConfig where
  name : String
  unit : HAUnit
deriving DecidableEq, Repr

/-- `LIFE_SENSOR_CONFIG`: a Python dict keyed by the ints 48 and 46 and
the string `"default"`. -/
def LIFE_SENSOR_CONFIG : List (PVal × LifeConfig) :=
  [(PVal.num 48, ⟨"Days to replace", HAUnit.days⟩),
   (PVal.num 46, ⟨"Days to replace", HAUnit.days⟩),
   (PVal.str "default", ⟨"Weeks to replace", HAUnit.weeks⟩)]

/-- Dict lookup in `LIFE_SENSOR_CONFIG` (no default). -/
def lifeConfigLookup (v : PVal) : Option LifeConfig :=
  (LIFE_SENSOR_CONFIG.find? (fun p => p.1 == v)).map (fun p => p.2)

/-- `LIFE_SENSOR_CONFIG["default"]` (the key is present in the literal). -/
def lifeDefaultConfig : LifeConfig := ⟨"Weeks to replace", HAUnit.weeks⟩

/-- `KiddeSensorLifeEntity._model_config`: look the device's `mb_model` up
in `LIFE_SENSOR_CONFIG`, using the string `"default"` when the key is
absent, and falling back to `LIFE_SENSOR_CONFIG["default"]` when the
identifier is not a key of the table. -/
def lifeModelConfig (d : RawData) : LifeConfig :=
  (lifeConfigLookup (pyGetD d KEY_MB_MODEL (PVal.str "default"))).getD
    lifeDefaultConfig

/-- The (name, unit) shown by `KiddeSensorLifeEntity.entity_description`:
the base description with name and unit replaced by the model config. -/
def lifeEntityNameUnit (d : RawData) : String × HAUnit :=
  ((lifeModelConfig d).name, (lifeModelConfig d).unit)

/-- `KiddeSensorLifeEntity.native_value`: the raw `life` field, returned
with no transformation. -/
def lifeNativeValue (d : RawData) : PVal :=
  pyGet d LIFE_SENSOR_KEY

/-! ## The simple entity (`KiddeSensorEntity`) -/

/-- `KiddeSensorEntity.native_value`: the raw field value as is. -/
def sensorNativeValue (d : RawData) (k : String) : PVal :=
  pyGet d k

/-! ## The measurement entity (`KiddeSensorMeasurementEntity`) -/

/-- `KiddeSensorMeasurementEntity.native_value`: the nested object's
`value` entry, or `None` when the raw value is not a dict. -/
def measurementNativeValue (d : RawData) (k : String) : PVal :=
  match pyGet d k with
  | PVal.dict ed => pyGet ed KEY_VALUE
  | _ => PVal.none

/-- Python `str.upper()` (the unit codes are ASCII, so per-character
uppercasing coincides with Python's). -/
def pyUpper (s : String) : String :=
  ⟨s.toList.map Char.toUpper⟩

/-- The `match` over the uppercased unit code in
`KiddeSensorMeasurementEntity.native_unit_of_measurement`. -/
def matchUnit (u : String) : Option HAUnit :=
  if u = "C" then some HAUnit.celsius
  else if u = "F" then some HAUnit.fahrenheit
  else if u = "%RH" then some HAUnit.percentage
  else if u = "HPA" then some HAUnit.pa
  else if u = "PPB" then some HAUnit.ppb
  else if u = "PPM" then some HAUnit.ppm
  else if u = "V" then some HAUnit.volt
  else Option.none

/-- `KiddeSensorMeasurementEntity.native_unit_of_measurement`: `None` when
the raw value is not a dict; otherwise `entity_dict.get("Unit", "")` is
uppercased and matched — when that entry is present but not a string, the
`.upper()` call raises `AttributeError`. -/
def measurementNativeUnit (d : RawData) (k : String) :
    Except PyExn (Option HAUnit) :=
  match pyGet d k with
  | PVal.dict ed =>
      match pyGetD ed KEY_UNIT (PVal.str "") with
      | PVal.str u => .ok (matchUnit (pyUpper u))
      | _ => .error .attributeError
  | _ => .ok Option.none

/-- `KiddeSensorMeasurementEntity.extra_state_attributes`: always a dict
with the single key `"Status"`, holding the nested object's `status` entry
(`None` when absent or when the raw value is not a dict). -/
def measurementExtraStateAttributes (d : RawData) (k : String) :
    List (String × PVal) :=
  match pyGet d k with
  | PVal.dict ed => [("Status", pyGet ed KEY_STATUS)]
  | _ => [("Status", PVal.none)]

/-! ## Specification-side timestamp renderers

Two renderers written from the specification's words rather than from the
source, for comparison with `timestampNativeValue`. -/

/-- The timestamp algorithm as the specification words it: strip the
single trailing zone-designator character, discard everything after the
first period, parse the prefix strictly, tag UTC; "unknown" (`none`) when
the value is absent or the parse fails. -/
def timestampRenderSpec (v : Option String) : Option PyDateTime :=
  match v with
  | Option.none => Option.none
  | some s =>
      let l := s.toList
      let l := if l.getLast? = some 'Z' then l.dropLast else l
      (strptimeYmdHMS (beforeDot l)).map tagUTC

/-- The timestamp algorithm with the strip step amended to what the code
does: remove every leading and trailing `'Z'`, then discard everything
after the first period, parse strictly, tag UTC. -/
def timestampRenderAmended (v : Option String) : Option PyDateTime :=
  match v with
  | Option.none => Option.none
  | some s => (strptimeYmdHMS (beforeDot (stripChar 'Z' s.toList))).map tagUTC

/-! ## Helper lemmas -/

lemma any_key_filter_map (kd : SensorKind) (l : List String) (p : String → Bool)
    (k : String) :
    ((l.filter p).map (fun s => SensorInst.mk kd s)).any (fun i => i.key == k)
      = (l.contains k && p k) := by
  induction l with
  | nil => rfl
  | cons a t ih =>
      by_cases h2 : a = k
      · subst h2
        cases h : p a <;> simp [List.filter_cons, h, ih, List.contains_cons]
      · cases h : p a <;>
          simp [List.filter_cons, h, ih, List.contains_cons, h2, Ne.symm h2]

lemma any_if_singleton (c : Bool) (x : SensorInst) (q : SensorInst → Bool) :
    (if c then [x] else []).any q = (c && q x) := by
  cases c <;> simp

/-- Characterization of device enumeration: a sensor with catalog key `k`
is appended for a device exactly when `k` is present in the raw data and
the DETECT-series skip rule does not suppress it. -/
lemma sensorForKey_eq (d : RawData) (k : String) (hk : k ∈ catalogKeys) :
    (setupDeviceSensors d).any (fun i => i.key == k)
      = (hasKey d k
         && !(skipSimpleSensorKeys.contains k
              && mbModelIsDetect (pyGet d KEY_MB_MODEL))) := by
  fin_cases hk <;>
    simp [setupDeviceSensors, List.any_append, any_key_filter_map, any_if_singleton,
      timestampSensorKeys, simpleSensorKeys, measurementSensorKeys, skipSimpleSensorKeys,
      lifeDescription, LIFE_SENSOR_KEY, Bool.and_comm]

/-- The keys of a device's enumerated sensors form a sublist of a fixed
duplicate-free master list. -/
lemma setup_keys_sublist (d : RawData) :
    List.Sublist ((setupDeviceSensors d).map SensorInst.key)
      (timestampSensorKeys ++ [LIFE_SENSOR_KEY]
          ++ simpleSensorKeys.filter (fun k => !(k == LIFE_SENSOR_KEY))
          ++ measurementSensorKeys) := by
  unfold setupDeviceSensors
  simp only [List.map_append, List.map_map, Function.comp_def]
  refine List.Sublist.append (List.Sublist.append (List.Sublist.append ?_ ?_) ?_) ?_
  · exact (List.map_id _ ▸ (List.filter_sublist _))
  · cases h2 : (hasKey d LIFE_SENSOR_KEY && lifeDescription.isSome) <;> simp [h2]
  · have := List.monotone_filter_right simpleSensorKeys
      (p := fun k => !(k == LIFE_SENSOR_KEY)
          && !(skipSimpleSensorKeys.contains k && mbModelIsDetect (pyGet d KEY_MB_MODEL))
          && hasKey d k)
      (q := fun k => !(k == LIFE_SENSOR_KEY)) ?_
    · simpa using this
    · intro a ha
      simp only [Bool.and_eq_true] at ha
      exact ha.1.1
  · simp [List.filter_sublist]

/-- No two sensors of one device share a description key. -/
lemma setup_keys_nodup (d : RawData) :
    ((setupDeviceSensors d).map SensorInst.key).Nodup := by
  have hT : (timestampSensorKeys ++ [LIFE_SENSOR_KEY]
      ++ simpleSensorKeys.filter (fun k => !(k == LIFE_SENSOR_KEY))
      ++ measurementSensorKeys).Nodup := by decide
  exact hT.sublist (setup_keys_sublist d)

/-- When `pyGet` finds a non-`None` value, the key is present and any
defaulted lookup agrees. -/
lemma pyGetD_of_pyGet (d : RawData) (k : String) (x v : PVal)
    (hv : v ≠ PVal.none) (h : pyGet d k = v) : pyGetD d k x = v := by
  induction d with
  | nil =>
      simp only [pyGet] at h
      exact absurd h.symm hv
  | cons a t ih =>
      obtain ⟨k', w⟩ := a
      by_cases hk : k' = k <;> simp [pyGet, pyGetD, hk] at h ⊢
      · exact h
      · exact ih h

/-- A defaulted lookup on an absent key yields the default. -/
lemma pyGetD_of_not_hasKey (d : RawData) (k : String) (x : PVal)
    (h : hasKey d k = false) : pyGetD d k x = x := by
  induction d with
  | nil => rfl
  | cons a t ih =>
      obtain ⟨k', w⟩ := a
      simp only [hasKey, Bool.or_eq_false_iff, decide_eq_false_iff_not] at h
      simp [pyGetD, h.1, ih h.2]

/-- The life key appears among a device's sensor keys with multiplicity
one exactly when it is present in the raw data. -/
lemma life_count (d : RawData) :
    ((setupDeviceSensors d).map SensorInst.key).count LIFE_SENSOR_KEY
      = if hasKey d LIFE_SENSOR_KEY then 1 else 0 := by
  have hany := sensorForKey_eq d LIFE_SENSOR_KEY (by decide)
  simp only [show skipSimpleSensorKeys.contains LIFE_SENSOR_KEY = false from by decide,
    Bool.false_and, Bool.not_false, Bool.and_true] at hany
  by_cases h : hasKey d LIFE_SENSOR_KEY
  · rw [h] at hany
    have hmem : LIFE_SENSOR_KEY ∈ (setupDeviceSensors d).map SensorInst.key := by
      rcases List.any_eq_true.mp hany with ⟨i, hi, hik⟩
      exact List.mem_map.mpr ⟨i, hi, by simpa using hik⟩
    simp only [if_pos h]
    exact List.count_eq_one_of_mem (setup_keys_nodup d) hmem
  · have h' : hasKey d LIFE_SENSOR_KEY = false := by simpa using h
    rw [h'] at hany
    simp only [if_neg h]
    refine List.count_eq_zero.mpr ?_
    intro hmem
    rcases List.mem_map.mp hmem with ⟨i, hi, hik⟩
    have hit : (setupDeviceSensors d).any (fun i => i.key == LIFE_SENSOR_KEY) = true :=
      List.any_eq_true.mpr ⟨i, hi, by simp [hik]⟩
    rw [hany] at hit
    cases hit

/-- C1: for every device and every catalog field, enumeration instantiates
a sensor for the pair iff the field key is present in the device's raw
data, except where the skip-set suppression for DETECT model identifiers
applies. -/
theorem spec_C1 (d : RawData) (k : String) (hk : k ∈ catalogKeys) :
    ((setupDeviceSensors d).any (fun i => i.key == k))
      = (hasKey d k
         && !(skipSimpleSensorKeys.contains k
              && mbModelIsDetect (pyGet d KEY_MB_MODEL))) :=
  sensorForKey_eq d k hk

theorem spec_C1_witness :
    "smoke_level" ∈ catalogKeys
    ∧ ((setupDeviceSensors [("smoke_level", PVal.num 3)]).any
          (fun i => i.key == "smoke_level"))
        = (hasKey [("smoke_level", PVal.num 3)] "smoke_level"
           && !(skipSimpleSensorKeys.contains "smoke_level"
                && mbModelIsDetect
                  (pyGet [("smoke_level", PVal.num 3)] KEY_MB_MODEL))) :=
  ⟨by decide, spec_C1 [("smoke_level", PVal.num 3)] "smoke_level" (by decide)⟩

/-- C2: for a device whose `mb_model` is 46 or 48 the two legacy voltage
keys produce no sensor even when present; for any other (or missing)
`mb_model` they produce a sensor exactly when present. -/
theorem spec_C2 (d : RawData) :
    ((setupDeviceSensors d).any (fun i => i.key == "batt_volt"))
        = (hasKey d "batt_volt"
           && !(pyGet d KEY_MB_MODEL == PVal.num 46
                || pyGet d KEY_MB_MODEL == PVal.num 48))
    ∧ ((setupDeviceSensors d).any (fun i => i.key == "battery_voltage"))
        = (hasKey d "battery_voltage"
           && !(pyGet d KEY_MB_MODEL == PVal.num 46
                || pyGet d KEY_MB_MODEL == PVal.num 48)) := by
  constructor
  · have h := sensorForKey_eq d "batt_volt" (by decide)
    simpa [skipSimpleSensorKeys, mbModelIsDetect, Bool.or_comm] using h
  · have h := sensorForKey_eq d "battery_voltage" (by decide)
    simpa [skipSimpleSensorKeys, mbModelIsDetect, Bool.or_comm] using h

/-- C9: in one enumeration pass no field key yields more than one sensor
per device, and the life key yields exactly one sensor when present (it is
not duplicated by the generic scalar loop). -/
theorem spec_C9 (d : RawData) :
    (∀ k : String, ((setupDeviceSensors d).map SensorInst.key).count k ≤ 1)
    ∧ ((setupDeviceSensors d).map SensorInst.key).count LIFE_SENSOR_KEY
        = (if hasKey d LIFE_SENSOR_KEY then 1 else 0) :=
  ⟨List.nodup_iff_count_le_one.mp (setup_keys_nodup d), life_count d⟩

lemma stripTrail_append_self (c : Char) (l : List Char) :
    ((l ++ [c]).reverse.dropWhile (· = c)).reverse
      = (l.reverse.dropWhile (· = c)).reverse := by
  rw [List.reverse_append]
  simp [List.dropWhile_cons_of_pos]

lemma stripChar_wrap (l : List Char) :
    stripChar 'Z' ('Z' :: (l ++ ['Z'])) = stripChar 'Z' l := by
  unfold stripChar
  rw [List.dropWhile_cons_of_pos (by decide)]
  rw [List.dropWhile_append]
  by_cases he : (l.dropWhile (· = 'Z')).isEmpty = true
  · rw [if_pos he]
    rw [List.isEmpty_iff] at he
    simp [he, List.dropWhile]
  · rw [if_neg he]
    exact stripTrail_append_self _ _

/-- C3: for the life sensor, a model identifier of 48 or 46 yields display
name "Days to replace" with the day unit; any other integer identifier
(e.g. 99) and an absent identifier yield "Weeks to replace" with the week
unit; the numeric value is a direct passthrough of the raw field. -/
theorem spec_C3 (d : RawData) :
    (∀ n : Int, pyGet d KEY_MB_MODEL = PVal.num n →
        ((n = 48 ∨ n = 46) →
            lifeEntityNameUnit d = ("Days to replace", HAUnit.days))
        ∧ (n ≠ 48 → n ≠ 46 →
            lifeEntityNameUnit d = ("Weeks to replace", HAUnit.weeks)))
    ∧ (hasKey d KEY_MB_MODEL = false →
        lifeEntityNameUnit d = ("Weeks to replace", HAUnit.weeks))
    ∧ lifeNativeValue d = pyGet d LIFE_SENSOR_KEY := by
  refine ⟨?_, ?_, rfl⟩
  · intro n hn
    have hd : pyGetD d KEY_MB_MODEL (PVal.str "default") = PVal.num n :=
      pyGetD_of_pyGet d KEY_MB_MODEL _ _ (by intro h; cases h) hn
    constructor
    · rintro (rfl | rfl) <;>
        (simp only [lifeEntityNameUnit, lifeModelConfig, hd]; decide)
    · intro h48 h46
      have e48 : (PVal.num 48 == PVal.num n) = false := by
        refine beq_eq_false_iff_ne.mpr ?_
        intro hh; injection hh with hv; exact h48 hv.symm
      have e46 : (PVal.num 46 == PVal.num n) = false := by
        refine beq_eq_false_iff_ne.mpr ?_
        intro hh; injection hh with hv; exact h46 hv.symm
      have edef : (PVal.str "default" == PVal.num n) = false :=
        beq_eq_false_iff_ne.mpr (by intro hh; cases hh)
      simp only [lifeEntityNameUnit, lifeModelConfig, hd]
      simp [lifeConfigLookup, LIFE_SENSOR_CONFIG, List.find?, e48, e46, edef,
        lifeDefaultConfig]
  · intro h
    have hd := pyGetD_of_not_hasKey d KEY_MB_MODEL (PVal.str "default") h
    simp only [lifeEntityNameUnit, lifeModelConfig, hd]
    decide

theorem spec_C3_witness :
    lifeEntityNameUnit [("mb_model", PVal.num 48)] = ("Days to replace", HAUnit.days)
    ∧ lifeEntityNameUnit [("mb_model", PVal.num 99)] = ("Weeks to replace", HAUnit.weeks)
    ∧ lifeEntityNameUnit [] = ("Weeks to replace", HAUnit.weeks) :=
  ⟨((spec_C3 [("mb_model", PVal.num 48)]).1 48 (by decide)).1 (Or.inl rfl),
   ((spec_C3 [("mb_model", PVal.num 99)]).1 99 (by decide)).2 (by decide) (by decide),
   (spec_C3 []).2.1 (by decide)⟩

/-- C10: the timestamp renderer removes every leading and trailing `'Z'`
(not only a single trailing zone designator), so wrapping any raw string
in `'Z'`s does not change the result, and inputs such as
`"Z2024-06-22T16:00:19Z"` and `"2024-06-22T16:00:19ZZZ"` still parse to a
UTC datetime rather than "unknown". -/
theorem spec_C10 :
    (∀ (k s : String),
      timestampNativeValue [(k, PVal.str ("Z" ++ s ++ "Z"))] k
        = timestampNativeValue [(k, PVal.str s)] k)
    ∧ timestampNativeValue [("last_seen", PVal.str "Z2024-06-22T16:00:19Z")] "last_seen"
        = .ok (some ⟨2024, 6, 22, 16, 0, 19, true⟩)
    ∧ timestampNativeValue [("last_seen", PVal.str "2024-06-22T16:00:19ZZZ")] "last_seen"
        = .ok (some ⟨2024, 6, 22, 16, 0, 19, true⟩) := by
  refine ⟨?_, by decide, by decide⟩
  intro k s
  simp [timestampNativeValue, pyGet, stripChar_wrap]

/-- Evaluation of the unit accessor on a one-field device whose nested
object carries a string unit code. -/
lemma measurementNativeUnit_strUnit (k u : String) :
    measurementNativeUnit [(k, PVal.dict [("Unit", PVal.str u)])] k
      = .ok (matchUnit (pyUpper u)) := by
  simp [measurementNativeUnit, pyGet, pyGetD, KEY_UNIT]

/-- C4 counterexample: the claim says the renderer strips only the
trailing zone designator, but on `"Z2024-06-22T16:00:19Z"` the code also
strips the leading `'Z'` and parses successfully, while the claimed
algorithm would fail and yield "unknown". -/
theorem spec_C4_cex :
    timestampNativeValue [("last_seen", PVal.str "Z2024-06-22T16:00:19Z")] "last_seen"
        = .ok (some ⟨2024, 6, 22, 16, 0, 19, true⟩)
    ∧ timestampRenderSpec (some "Z2024-06-22T16:00:19Z") = Option.none := by
  decide

/-- C4 (amended): an absent raw value yields "unknown"; a string raw
value is rendered by stripping every leading and trailing `'Z'` (not just
the single trailing zone designator), discarding everything after the
first period and parsing the prefix strictly as `YYYY-MM-DDTHH:MM:SS`
tagged UTC; a failed parse such as `"not-a-date"` yields "unknown" with no
exception escaping. -/
theorem spec_C4 (d : RawData) (k : String) :
    (pyGet d k = PVal.none → timestampNativeValue d k = .ok Option.none)
    ∧ (∀ s, pyGet d k = PVal.str s →
        timestampNativeValue d k = .ok (timestampRenderAmended (some s)))
    ∧ timestampNativeValue [("last_seen", PVal.str "not-a-date")] "last_seen"
        = .ok Option.none := by
  refine ⟨?_, ?_, by decide⟩
  · intro h
    simp [timestampNativeValue, h]
  · intro s h
    simp [timestampNativeValue, h, timestampRenderAmended]

/-- Witness for C4 at a concrete device and key. -/
theorem spec_C4_witness :
    timestampNativeValue [("last_seen", PVal.str "2024-06-22T16:00:19Z")] "last_seen"
      = .ok (timestampRenderAmended (some "2024-06-22T16:00:19Z")) :=
  (spec_C4 [("last_seen", PVal.str "2024-06-22T16:00:19Z")] "last_seen").2.1
    "2024-06-22T16:00:19Z" (by decide)

/-- C8 counterexample: the two quoted well-formed timestamps denote
different calendar instants, so they do not parse to the same value. -/
theorem spec_C8_cex :
    timestampNativeValue
        [("last_seen", PVal.str "2024-06-14T03:40:39.667544824Z")] "last_seen"
      ≠ timestampNativeValue
        [("last_seen", PVal.str "2024-06-22T16:00:19Z")] "last_seen" := by
  decide

/-- C8 (amended): each of the two quoted well-formed timestamps parses
to its own calendar instant truncated to whole seconds and tagged UTC, and
parsing is insensitive to the fractional-second suffix. -/
theorem spec_C8 :
    timestampNativeValue
        [("last_seen", PVal.str "2024-06-14T03:40:39.667544824Z")] "last_seen"
        = .ok (some ⟨2024, 6, 14, 3, 40, 39, true⟩)
    ∧ timestampNativeValue
        [("last_seen", PVal.str "2024-06-22T16:00:19Z")] "last_seen"
        = .ok (some ⟨2024, 6, 22, 16, 0, 19, true⟩)
    ∧ timestampNativeValue
        [("last_seen", PVal.str "2024-06-14T03:40:39.667544824Z")] "last_seen"
        = timestampNativeValue
          [("last_seen", PVal.str "2024-06-14T03:40:39Z")] "last_seen" :=
  ⟨by decide, by decide, by decide⟩

/-- C5: unit-code translation is case-insensitive ("hpa", "HPA" and
"Hpa" map to the same unit, and equal uppercasings give equal results) and
follows the fixed table C, F, %RH, HPA, PPB, PPM, V; every other code,
including the empty string and "XYZ", yields no unit. -/
theorem spec_C5 :
    ((∀ u₁ u₂ : String, pyUpper u₁ = pyUpper u₂ →
        measurementNativeUnit [("hpa", PVal.dict [("Unit", PVal.str u₁)])] "hpa"
          = measurementNativeUnit [("hpa", PVal.dict [("Unit", PVal.str u₂)])] "hpa")
      ∧ measurementNativeUnit [("hpa", PVal.dict [("Unit", PVal.str "hpa")])] "hpa"
          = .ok (some HAUnit.pa)
      ∧ measurementNativeUnit [("hpa", PVal.dict [("Unit", PVal.str "HPA")])] "hpa"
          = .ok (some HAUnit.pa)
      ∧ measurementNativeUnit [("hpa", PVal.dict [("Unit", PVal.str "Hpa")])] "hpa"
          = .ok (some HAUnit.pa))
    ∧ (measurementNativeUnit [("iaq_temperature", PVal.dict [("Unit", PVal.str "C")])]
          "iaq_temperature" = .ok (some HAUnit.celsius)
      ∧ measurementNativeUnit [("iaq_temperature", PVal.dict [("Unit", PVal.str "F")])]
          "iaq_temperature" = .ok (some HAUnit.fahrenheit)
      ∧ measurementNativeUnit [("humidity", PVal.dict [("Unit", PVal.str "%RH")])]
          "humidity" = .ok (some HAUnit.percentage)
      ∧ measurementNativeUnit [("tvoc", PVal.dict [("Unit", PVal.str "PPB")])]
          "tvoc" = .ok (some HAUnit.ppb)
      ∧ measurementNativeUnit [("co2", PVal.dict [("Unit", PVal.str "PPM")])]
          "co2" = .ok (some HAUnit.ppm)
      ∧ measurementNativeUnit [("iaq", PVal.dict [("Unit", PVal.str "V")])]
          "iaq" = .ok (some HAUnit.volt))
    ∧ ((∀ u : String,
          pyUpper u ∉ (["C", "F", "%RH", "HPA", "PPB", "PPM", "V"] : List String) →
          measurementNativeUnit [("hpa", PVal.dict [("Unit", PVal.str u)])] "hpa"
            = .ok Option.none)
      ∧ measurementNativeUnit [("hpa", PVal.dict [("Unit", PVal.str "")])] "hpa"
          = .ok Option.none
      ∧ measurementNativeUnit [("hpa", PVal.dict [("Unit", PVal.str "XYZ")])] "hpa"
          = .ok Option.none) := by
  refine ⟨⟨?_, by decide, by decide, by decide⟩,
    ⟨by decide, by decide, by decide, by decide, by decide, by decide⟩,
    ⟨?_, by decide, by decide⟩⟩
  · intro u₁ u₂ h
    rw [measurementNativeUnit_strUnit, measurementNativeUnit_strUnit, h]
  · intro u h
    simp only [List.mem_cons, List.not_mem_nil, or_false, not_or] at h
    obtain ⟨h1, h2, h3, h4, h5, h6, h7⟩ := h
    rw [measurementNativeUnit_strUnit]
    simp [matchUnit, h1, h2, h3, h4, h5, h6, h7]

/-- Witness for C5 at the concrete unrecognized code "xYz". -/
theorem spec_C5_witness :
    (pyUpper "xYz" ∉ (["C", "F", "%RH", "HPA", "PPB", "PPM", "V"] : List String))
    ∧ measurementNativeUnit [("hpa", PVal.dict [("Unit", PVal.str "xYz")])] "hpa"
        = .ok Option.none :=
  ⟨by decide, spec_C5.2.2.1 "xYz" (by decide)⟩

/-- C6: for a compound measurement field whose raw value is not a
nested object, the value reads "unknown", the unit reads "no unit", and
the attributes map is exactly `{"Status": None}`; the Status key is
present for every input and no accessor raises. -/
theorem spec_C6 (d : RawData) (k : String) :
    (∀ v, pyGet d k = v → (∀ ed, v ≠ PVal.dict ed) →
        measurementNativeValue d k = PVal.none
        ∧ measurementNativeUnit d k = .ok Option.none
        ∧ measurementExtraStateAttributes d k = [("Status", PVal.none)])
    ∧ (∃ s, measurementExtraStateAttributes d k = [("Status", s)]) := by
  constructor
  · intro v hv hnd
    cases v with
    | dict ed => exact absurd rfl (hnd ed)
    | none =>
        exact ⟨by simp [measurementNativeValue, hv],
          by simp [measurementNativeUnit, hv],
          by simp [measurementExtraStateAttributes, hv]⟩
    | str s =>
        exact ⟨by simp [measurementNativeValue, hv],
          by simp [measurementNativeUnit, hv],
          by simp [measurementExtraStateAttributes, hv]⟩
    | num n =>
        exact ⟨by simp [measurementNativeValue, hv],
          by simp [measurementNativeUnit, hv],
          by simp [measurementExtraStateAttributes, hv]⟩
  · cases hq : pyGet d k <;> simp [measurementExtraStateAttributes, hq]

/-- Witness for C6 at the concrete malformed raw value `7`. -/
theorem spec_C6_witness :
    measurementNativeValue [("co2", PVal.num 7)] "co2" = PVal.none
    ∧ measurementNativeUnit [("co2", PVal.num 7)] "co2" = .ok Option.none
    ∧ measurementExtraStateAttributes [("co2", PVal.num 7)] "co2"
        = [("Status", PVal.none)] :=
  (spec_C6 [("co2", PVal.num 7)] "co2").1 (PVal.num 7) (by decide)
    (fun ed h => by cases h)

/-- C7 counterexample: not every accessor is total — a numeric raw
value for a timestamp field, and a nested object whose unit entry is
numeric, both raise `AttributeError` to the caller. -/
theorem spec_C7_cex :
    timestampNativeValue [("last_seen", PVal.num 5)] "last_seen"
        = .error PyExn.attributeError
    ∧ measurementNativeUnit [("co2", PVal.dict [("Unit", PVal.num 5)])] "co2"
        = .error PyExn.attributeError := by
  decide

/-- C7 (amended): the accessors never raise except on mistyped raw
values — the timestamp accessor is total on absent and string values and
raises exactly on present non-string values; the measurement unit
accessor is total when the raw value is not a nested object or when the
nested unit entry is a string, and raises exactly when that entry is
present and not a string. -/
theorem spec_C7 (d : RawData) (k : String) :
    (pyGet d k = PVal.none → timestampNativeValue d k = .ok Option.none)
    ∧ (∀ s, pyGet d k = PVal.str s → (timestampNativeValue d k).isOk = true)
    ∧ (∀ v, pyGet d k = v → v ≠ PVal.none → (∀ s, v ≠ PVal.str s) →
        timestampNativeValue d k = .error PyExn.attributeError)
    ∧ (∀ ed, pyGet d k = PVal.dict ed →
        (∀ u, pyGetD ed KEY_UNIT (PVal.str "") = PVal.str u →
            (measurementNativeUnit d k).isOk = true)
        ∧ (∀ w, pyGetD ed KEY_UNIT (PVal.str "") = w → (∀ u, w ≠ PVal.str u) →
            measurementNativeUnit d k = .error PyExn.attributeError))
    ∧ (∀ v, pyGet d k = v → (∀ ed, v ≠ PVal.dict ed) →
        (measurementNativeUnit d k).isOk = true) := by
  refine ⟨?_, ?_, ?_, ?_, ?_⟩
  · intro h
    simp [timestampNativeValue, h]
  · intro s h
    simp [timestampNativeValue, h, Except.isOk, Except.toBool]
  · intro v hv hn hs
    cases v with
    | none => exact absurd rfl hn
    | str s => exact absurd rfl (hs s)
    | num n => simp [timestampNativeValue, hv]
    | dict ed => simp [timestampNativeValue, hv]
  · intro ed hed
    constructor
    · intro u hu
      simp [measurementNativeUnit, hed, hu, Except.isOk, Except.toBool]
    · intro w hw hws
      cases w with
      | str s => exact absurd rfl (hws s)
      | none => simp [measurementNativeUnit, hed, hw]
      | num n => simp [measurementNativeUnit, hed, hw]
      | dict e2 => simp [measurementNativeUnit, hed, hw]
  · intro v hv hnd
    cases v with
    | dict ed => exact absurd rfl (hnd ed)
    | none => simp [measurementNativeUnit, hv, Except.isOk, Except.toBool]
    | str s => simp [measurementNativeUnit, hv, Except.isOk, Except.toBool]
    | num n => simp [measurementNativeUnit, hv, Except.isOk, Except.toBool]

/-- Witness for C7 at a concrete string-valued timestamp field. -/
theorem spec_C7_witness :
    (timestampNativeValue [("last_seen", PVal.str "not-a-date")] "last_seen").isOk
      = true :=
  (spec_C7 [("last_seen", PVal.str "not-a-date")] "last_seen").2.1
    "not-a-date" (by decide)
